import Mathlib

/-!
Verification of the variable-scoping engine of a command shell
(`src/env.h`): the variable entity type `env_var_t`, the scope-flag and
result-code constants, and the scope-stack operations (`env_get`,
`env_set`, `env_remove`, `env_push`, `env_pop`) together with the
snapshot provider.  Wide strings (`wcstring`) are embedded as `String`;
machine enums as `Nat` constants.
-/

/-- Value denoting a null string (`ENV_NULL`, `L"\x1d"` in the source). -/
def ENV_NULL : String := "\x1d"

/-- Default mode (`ENV_DEFAULT = 0`). -/
def ENV_DEFAULT : Nat := 0

/-- Flag for local (to the current block) variable (`ENV_LOCAL = 1`). -/
def ENV_LOCAL : Nat := 1

/-- Flag for exported (to commands) variable (`ENV_EXPORT = 2`). -/
def ENV_EXPORT : Nat := 2

/-- Flag for unexported variable (`ENV_UNEXPORT = 16`). -/
def ENV_UNEXPORT : Nat := 16

/-- Flag for global variable (`ENV_GLOBAL = 4`). -/
def ENV_GLOBAL : Nat := 4

/-- Flag for variable update request from the user (`ENV_USER = 8`). -/
def ENV_USER : Nat := 8

/-- Flag for universal variable (`ENV_UNIVERSAL = 32`). -/
def ENV_UNIVERSAL : Nat := 32

/-- Return values of `env_set`: the C++ `enum { ENV_OK, ENV_PERM,
ENV_SCOPE, ENV_INVALID }` assigns consecutive values from 0. -/
def ENV_OK : Nat := 0

/-- Second enumerator of the `env_set` result enum. -/
def ENV_PERM : Nat := 1

/-- Third enumerator of the `env_set` result enum. -/
def ENV_SCOPE : Nat := 2

/-- Fourth enumerator of the `env_set` result enum. -/
def ENV_INVALID : Nat := 3

/-- Tests one scope-flag bit of a mode word, as the C++ code does with
`mode & FLAG`. -/
def has_flag (mode flag : Nat) : Bool := mode &&& flag != 0

/-- The variable entity `env_var_t`: a string payload `val`, an existence
flag `is_missing`, and the public export flag `exportv`. -/
structure env_var_t where
  val : String
  is_missing : Bool
  exportv : Bool
deriving DecidableEq, Repr

/-- Constructor `env_var_t(const wcstring &x)`: present, not exported. -/
def env_var_t.of_string (x : String) : env_var_t := ⟨x, false, false⟩

/-- Default constructor `env_var_t()`: empty value, present, not exported. -/
def env_var_t.mk_default : env_var_t := ⟨"", false, false⟩

/-- `set_missing()`: marks the entity as missing. -/
def env_var_t.set_missing (v : env_var_t) : env_var_t := { v with is_missing := true }

/-- `empty()`: `val.empty() || val == ENV_NULL`. -/
def env_var_t.empty (v : env_var_t) : Bool := v.val == "" || v.val == ENV_NULL

/-- `missing()`: returns the `is_missing` flag. -/
def env_var_t.missing (v : env_var_t) : Bool := v.is_missing

/-- `missing_or_empty()`: `missing() || empty()`. -/
def env_var_t.missing_or_empty (v : env_var_t) : Bool := v.missing || v.empty

/-- `set_val(s)`: `assert(!is_missing); val = s;`.  The failed assertion
(abort) is embedded as `none`; success returns the updated entity. -/
def env_var_t.set_val (v : env_var_t) (s : String) : Option env_var_t :=
  if v.is_missing then none else some { v with val := s }

/-- `operator==(const env_var_t &s)`:
`is_missing == s.is_missing && val == s.val`. -/
def env_var_eq (a b : env_var_t) : Bool :=
  a.is_missing == b.is_missing && a.val == b.val

/-- `operator!=(const env_var_t &v)`: `val != v.val`. -/
def env_var_ne (a b : env_var_t) : Bool := a.val != b.val

/-- `create_missing_var()` / `env_var_t::missing_var`: a default-constructed
entity marked missing. -/
def missing_var : env_var_t := env_var_t.mk_default.set_missing

/-- Modelled from the spec: one Scope Frame — "a named-to-entity table
plus a boolean introduces-new-scope marker".  The implementation behind
`env_push`/`env_set` is not under `src/`; only `src/env.h` declares it. -/
structure scope_frame where
  vars : List (String × env_var_t)
  new_scope : Bool
deriving DecidableEq, Repr

/-- Modelled from the spec: the scope-stack state of the resolver —
local frames (innermost first), the global frame, the universal table,
and the set of designated read-only names.  The resolver implementation
(`env.cpp`) is not under `src/`. -/
structure env_stack_t where
  locals : List scope_frame
  globals : List (String × env_var_t)
  universals : List (String × env_var_t)
  read_only : List String
deriving DecidableEq, Repr

/-- Modelled from the spec: search the local frame stack top-to-bottom
for a name, returning the first binding found. -/
def lookup_frames : List scope_frame → String → Option env_var_t
  | [], _ => none
  | f :: rest, k =>
    match f.vars.lookup k with
    | some v => some v
    | none => lookup_frames rest k

/-- Modelled from the spec: update the topmost local frame that already
binds the name ("update existing binding's current scope"); `none` when
no local frame binds it. -/
def set_in_frames : List scope_frame → String → env_var_t → Option (List scope_frame)
  | [], _, _ => none
  | f :: rest, k, v =>
    if (f.vars.lookup k).isSome then
      some ({ f with vars := (k, v) :: f.vars } :: rest)
    else
      match set_in_frames rest k v with
      | some rest' => some (f :: rest')
      | none => none

/-- Modelled from the spec: the mode-free resolved view — "search local
frame stack top-to-bottom, then global frame, then universal table,
returning the first present entity". -/
def env_get_opt (key : String) (st : env_stack_t) : Option env_var_t :=
  match lookup_frames st.locals key with
  | some v => some v
  | none =>
    match st.globals.lookup key with
    | some v => some v
    | none => st.universals.lookup key

/-- Modelled from the spec: `env_get(key, mode)` — "if `mode` restricts
to a scope, search only there; otherwise search local frame stack
top-to-bottom, then global frame, then universal table"; a name that is
not found yields `missing_var`. -/
def env_get (key : String) (mode : Nat) (st : env_stack_t) : env_var_t :=
  let r :=
    if has_flag mode ENV_LOCAL then lookup_frames st.locals key
    else if has_flag mode ENV_GLOBAL then st.globals.lookup key
    else if has_flag mode ENV_UNIVERSAL then st.universals.lookup key
    else env_get_opt key st
  match r with
  | some v => v
  | none => missing_var

/-- Modelled from the spec: the exported flag of the entity written by a
`set` — "updated from `EXPORT`/`UNEXPORT` flags when present, left
unchanged otherwise" (a fresh variable starts unexported). -/
def resolve_exportv (mode : Nat) (key : String) (st : env_stack_t) : Bool :=
  if has_flag mode ENV_EXPORT then true
  else if has_flag mode ENV_UNEXPORT then false
  else match env_get_opt key st with
    | some w => w.exportv
    | none => false

/-- Modelled from the spec: the mode-free write target — "update
existing binding's current scope, else create in innermost local
frame"; with no local frame on the stack the innermost scope is the
global frame. -/
def default_write (key : String) (ent : env_var_t) (st : env_stack_t) :
    env_stack_t :=
  match set_in_frames st.locals key ent with
  | some locals' => { st with locals := locals' }
  | none =>
    if (st.globals.lookup key).isSome then
      { st with globals := (key, ent) :: st.globals }
    else if (st.universals.lookup key).isSome then
      { st with universals := (key, ent) :: st.universals }
    else
      match st.locals with
      | [] => { st with globals := (key, ent) :: st.globals }
      | f :: rest =>
        { st with locals := { f with vars := (key, ent) :: f.vars } :: rest }

/-- Modelled from the spec: `env_set(key, mode, val)` — returns `SCOPE`
for mutually exclusive scope flags, `PERM` for a `USER`-flagged request
against a read-only name; otherwise writes the entity into the scope the
mode resolves to (default: "update existing binding's current scope,
else create in innermost local frame") and updates the exported flag
from `EXPORT`/`UNEXPORT` when present, leaving it unchanged otherwise.
The spec gives no concrete identifier-validation rule, so the `INVALID`
result is not modelled.  Returns the result code and the new state. -/
def env_set (key : String) (mode : Nat) (v : String) (st : env_stack_t) :
    Nat × env_stack_t :=
  if (has_flag mode ENV_LOCAL && has_flag mode ENV_GLOBAL) ||
     (has_flag mode ENV_LOCAL && has_flag mode ENV_UNIVERSAL) ||
     (has_flag mode ENV_GLOBAL && has_flag mode ENV_UNIVERSAL) then
    (ENV_SCOPE, st)
  else if has_flag mode ENV_USER && st.read_only.contains key then
    (ENV_PERM, st)
  else
    let ent : env_var_t := ⟨v, false, resolve_exportv mode key st⟩
    if has_flag mode ENV_GLOBAL then
      (ENV_OK, { st with globals := (key, ent) :: st.globals })
    else if has_flag mode ENV_UNIVERSAL then
      (ENV_OK, { st with universals := (key, ent) :: st.universals })
    else if has_flag mode ENV_LOCAL then
      match st.locals with
      | [] => (ENV_OK, { st with globals := (key, ent) :: st.globals })
      | f :: rest =>
        (ENV_OK, { st with locals := { f with vars := (key, ent) :: f.vars } :: rest })
    else
      (ENV_OK, default_write key ent st)

/-- Remove every binding of a name from an association table. -/
def erase_key (l : List (String × env_var_t)) (key : String) :
    List (String × env_var_t) :=
  l.filter (fun p => p.1 != key)

/-- Remove every binding of a name from every local frame. -/
def erase_frames (fs : List scope_frame) (key : String) : List scope_frame :=
  fs.map (fun f => { f with vars := erase_key f.vars key })

/-- Modelled from the spec: `env_remove(key, mode)` — "zero if the
variable existed, and non-zero if the variable did not exist";
"`USER`-originated removals additionally fail against read-only
variables (reported as an error, not as a silent no-op)"; the mode may
restrict the scope to erase from, and a mode-free remove erases the name
from every scope. -/
def env_remove (key : String) (mode : Nat) (st : env_stack_t) :
    Nat × env_stack_t :=
  if has_flag mode ENV_USER && st.read_only.contains key then (1, st)
  else if has_flag mode ENV_LOCAL then
    if (lookup_frames st.locals key).isSome then
      (0, { st with locals := erase_frames st.locals key })
    else (1, st)
  else if has_flag mode ENV_GLOBAL then
    if (st.globals.lookup key).isSome then
      (0, { st with globals := erase_key st.globals key })
    else (1, st)
  else if has_flag mode ENV_UNIVERSAL then
    if (st.universals.lookup key).isSome then
      (0, { st with universals := erase_key st.universals key })
    else (1, st)
  else
    if (env_get_opt key st).isSome then
      (0, { st with locals := erase_frames st.locals key,
                    globals := erase_key st.globals key,
                    universals := erase_key st.universals key })
    else (1, st)

/-- Modelled from the spec: whether a name exists in the scopes a
`remove` with the given mode targets ("existed in the targeted
scopes") — the scope named by a `LOCAL`/`GLOBAL`/`UNIVERSAL` flag, or
every scope for a mode without scope flags, mirroring the dispatch of
`env_remove`. -/
def remove_targets_exist (key : String) (mode : Nat) (st : env_stack_t) :
    Bool :=
  if has_flag mode ENV_LOCAL then (lookup_frames st.locals key).isSome
  else if has_flag mode ENV_GLOBAL then (st.globals.lookup key).isSome
  else if has_flag mode ENV_UNIVERSAL then (st.universals.lookup key).isSome
  else (env_get_opt key st).isSome

/-- Modelled from the spec: `env_push(new_scope)` — pushes a fresh frame
onto the local scope stack, tagged with the `new_scope` marker. -/
def env_push (new_scope : Bool) (st : env_stack_t) : env_stack_t :=
  { st with locals := ⟨[], new_scope⟩ :: st.locals }

/-- Modelled from the spec: `env_pop()` — pops the top local frame;
popping when only the global frame remains "is a fatal programming
error, not a recoverable condition", embedded as `none` (abort). -/
def env_pop (st : env_stack_t) : Option env_stack_t :=
  match st.locals with
  | [] => none
  | _ :: rest => some { st with locals := rest }

/-- Modelled from the spec: `env_vars_snapshot_t(keys)` — "an immutable
name-to-string mapping captured from the resolved view at a point in
time"; only keys present in the resolved view are recorded. -/
def env_vars_snapshot (keys : List String) (st : env_stack_t) :
    List (String × String) :=
  keys.filterMap (fun k => (env_get_opt k st).map (fun v => (k, v.val)))

/-- Modelled from the spec: `env_vars_snapshot_t::get(key)` on a
captured snapshot. -/
def snapshot_get (s : List (String × String)) (k : String) : Option String :=
  s.lookup k

/-- Modelled from the spec: the process state seen by the snapshot
provider — the live scope stack plus the snapshots handed out so far
(each stored by copy, newest first). -/
structure env_world_t where
  live : env_stack_t
  snapshots : List (List (String × String))
deriving DecidableEq, Repr

/-- Modelled from the spec: capturing a snapshot copies the resolved
view and leaves the live stack untouched. -/
def take_snapshot (keys : List String) (w : env_world_t) : env_world_t :=
  { w with snapshots := env_vars_snapshot keys w.live :: w.snapshots }

/-- Modelled from the spec: a `set` on the live scope stack; snapshots
"are copies, never mutated", so the operation touches only `live`. -/
def world_set (key : String) (mode : Nat) (v : String) (w : env_world_t) :
    Nat × env_world_t :=
  let r := env_set key mode v w.live
  (r.1, { live := r.2, snapshots := w.snapshots })

theorem has_flag_zero (f : Nat) : has_flag 0 f = false := by
  simp [has_flag, Nat.zero_and]

theorem lookup_cons_self (k : String) (v : env_var_t)
    (l : List (String × env_var_t)) : List.lookup k ((k, v) :: l) = some v := by
  simp [List.lookup]

theorem lookup_frames_set (k : String) (v : env_var_t) :
    ∀ fs fs' : List scope_frame, set_in_frames fs k v = some fs' →
      lookup_frames fs' k = some v := by
  intro fs
  induction fs with
  | nil => intro fs' h; simp [set_in_frames] at h
  | cons f rest ih =>
    intro fs' h
    rw [set_in_frames] at h
    cases hl : f.vars.lookup k with
    | some w =>
      rw [hl] at h
      simp at h
      rw [← h]
      simp [lookup_frames, lookup_cons_self]
    | none =>
      rw [hl] at h
      simp at h
      cases hrec : set_in_frames rest k v with
      | none => rw [hrec] at h; simp at h
      | some rest' =>
        rw [hrec] at h
        simp at h
        rw [← h]
        simp [lookup_frames, hl, ih rest' hrec]

theorem lookup_frames_none_of_set_none (k : String) (v : env_var_t) :
    ∀ fs : List scope_frame, set_in_frames fs k v = none →
      lookup_frames fs k = none := by
  intro fs
  induction fs with
  | nil => intro _; simp [lookup_frames]
  | cons f rest ih =>
    intro h
    rw [set_in_frames] at h
    cases hl : f.vars.lookup k with
    | some w => rw [hl] at h; simp at h
    | none =>
      rw [hl] at h
      simp at h
      cases hrec : set_in_frames rest k v with
      | some rest' => rw [hrec] at h; simp at h
      | none => simp [lookup_frames, hl, ih hrec]

theorem env_get_opt_default_write (st : env_stack_t) (n : String)
    (ent : env_var_t) : env_get_opt n (default_write n ent st) = some ent := by
  rw [default_write]
  cases hsf : set_in_frames st.locals n ent with
  | some locals' =>
    simp [env_get_opt, lookup_frames_set n ent st.locals locals' hsf]
  | none =>
    have hnl := lookup_frames_none_of_set_none n ent st.locals hsf
    by_cases hg : (st.globals.lookup n).isSome
    · simp [hg, env_get_opt, hnl, lookup_cons_self]
    · have hgn : st.globals.lookup n = none := by
        cases hgl : st.globals.lookup n with
        | some w => rw [hgl] at hg; simp at hg
        | none => rfl
      by_cases hu : (st.universals.lookup n).isSome
      · simp [hg, hu, env_get_opt, hnl, hgn, lookup_cons_self]
      · cases hloc : st.locals with
        | nil =>
          simp [hg, hu, hloc, env_get_opt, lookup_frames, lookup_cons_self]
        | cons f rest =>
          simp [hg, hu, hloc, env_get_opt, lookup_frames, lookup_cons_self]

theorem env_set_default_eq (n v : String) (st : env_stack_t) :
    env_set n ENV_DEFAULT v st =
      (ENV_OK, default_write n ⟨v, false, resolve_exportv ENV_DEFAULT n st⟩ st) := by
  rw [env_set]
  simp [ENV_DEFAULT, has_flag_zero]

/-- C1: a mode-free `env_set(n, DEFAULT, v)` followed by
`env_get(n, DEFAULT)` returns an entity that is present (not missing)
and whose value equals `v`. -/
theorem env_set_get_roundtrip (st : env_stack_t) (n v : String) :
    (env_get n ENV_DEFAULT ((env_set n ENV_DEFAULT v st).2)).missing = false ∧
    (env_get n ENV_DEFAULT ((env_set n ENV_DEFAULT v st).2)).val = v := by
  rw [env_set_default_eq]
  rw [env_get]
  simp [ENV_DEFAULT, has_flag_zero, env_get_opt_default_write,
    env_var_t.missing]

/-- C2 counterexample: two entities that are both missing but hold
different stored strings are not `==`-equal, because `operator==`
compares `val` even when both sides are missing. -/
theorem env_var_eq_missing_counterexample :
    (⟨"a", true, false⟩ : env_var_t).is_missing = true ∧
    (⟨"b", true, false⟩ : env_var_t).is_missing = true ∧
    env_var_eq ⟨"a", true, false⟩ ⟨"b", true, false⟩ = false := by
  decide

/-- C2 (amended): `a == b` holds iff the missing flags agree and the
stored values are equal; the exported flag never affects `==`. -/
theorem env_var_eq_spec (a b : env_var_t) :
    (env_var_eq a b = true ↔ (a.is_missing = b.is_missing ∧ a.val = b.val)) ∧
    (∀ e1 e2 : Bool,
      env_var_eq { a with exportv := e1 } { b with exportv := e2 } =
        env_var_eq a b) := by
  constructor
  · simp [env_var_eq]
  · intro e1 e2
    simp [env_var_eq]

/-- C3: `missing_or_empty()` is true exactly when the entity is missing,
or its value is the empty string, or its value is the null sentinel. -/
theorem missing_or_empty_spec (v : env_var_t) :
    v.missing_or_empty = true ↔
      (v.is_missing = true ∨ v.val = "" ∨ v.val = ENV_NULL) := by
  simp [env_var_t.missing_or_empty, env_var_t.missing, env_var_t.empty,
    Bool.or_eq_true, or_assoc]

/-- C4: `set_val` on a missing entity hits the assertion (embedded as
`none`); on a present entity it succeeds and replaces the value, leaving
the missing and export flags unchanged. -/
theorem set_val_spec (v : env_var_t) (s : String) :
    (v.is_missing = true → v.set_val s = none) ∧
    (v.is_missing = false → v.set_val s = some { v with val := s }) := by
  constructor
  · intro h
    simp [env_var_t.set_val, h]
  · intro h
    simp [env_var_t.set_val, h]

/-- C4 witness: `set_val` at a concrete missing entity and at a concrete
present entity. -/
theorem set_val_spec_witness :
    env_var_t.set_val ⟨"x", true, false⟩ "y" = none ∧
    env_var_t.set_val ⟨"x", false, false⟩ "y" = some ⟨"y", false, false⟩ :=
  ⟨(set_val_spec ⟨"x", true, false⟩ "y").1 rfl,
   (set_val_spec ⟨"x", false, false⟩ "y").2 rfl⟩

/-- C5: a snapshot is immutable after creation — a `set` applied to the
live scope stack after the snapshot was taken leaves every stored
snapshot unchanged, and the snapshot just taken holds the resolved view
from capture time, so `get` on it returns the same value before and
after the `set`. -/
theorem snapshot_isolation (w : env_world_t) (keys : List String)
    (n v : String) (mode : Nat) :
    ((world_set n mode v (take_snapshot keys w)).2).snapshots =
        (take_snapshot keys w).snapshots ∧
    ((world_set n mode v (take_snapshot keys w)).2).snapshots.head? =
        some (env_vars_snapshot keys w.live) :=
  ⟨rfl, rfl⟩

/-- C6: the scope-flag constants have exactly the values `DEFAULT=0,
LOCAL=1, EXPORT=2, GLOBAL=4, USER=8, UNEXPORT=16, UNIVERSAL=32`; the
nonzero flags occupy pairwise disjoint bits, and OR-ing a flag into any
combination (any mode word below 64) keeps that flag set and leaves
every other flag's presence unchanged, so combinations are formed by
bitwise OR. -/
theorem scope_flag_values :
    (ENV_DEFAULT = 0 ∧ ENV_LOCAL = 1 ∧ ENV_EXPORT = 2 ∧ ENV_GLOBAL = 4 ∧
     ENV_USER = 8 ∧ ENV_UNEXPORT = 16 ∧ ENV_UNIVERSAL = 32) ∧
    (ENV_LOCAL &&& ENV_EXPORT = 0 ∧ ENV_LOCAL &&& ENV_GLOBAL = 0 ∧
     ENV_LOCAL &&& ENV_USER = 0 ∧ ENV_LOCAL &&& ENV_UNEXPORT = 0 ∧
     ENV_LOCAL &&& ENV_UNIVERSAL = 0 ∧ ENV_EXPORT &&& ENV_GLOBAL = 0 ∧
     ENV_EXPORT &&& ENV_USER = 0 ∧ ENV_EXPORT &&& ENV_UNEXPORT = 0 ∧
     ENV_EXPORT &&& ENV_UNIVERSAL = 0 ∧ ENV_GLOBAL &&& ENV_USER = 0 ∧
     ENV_GLOBAL &&& ENV_UNEXPORT = 0 ∧ ENV_GLOBAL &&& ENV_UNIVERSAL = 0 ∧
     ENV_USER &&& ENV_UNEXPORT = 0 ∧ ENV_USER &&& ENV_UNIVERSAL = 0 ∧
     ENV_UNEXPORT &&& ENV_UNIVERSAL = 0) ∧
    ((List.range 64).all (fun m =>
      [ENV_LOCAL, ENV_EXPORT, ENV_GLOBAL, ENV_USER, ENV_UNEXPORT,
          ENV_UNIVERSAL].all (fun f =>
        has_flag (m ||| f) f &&
          [ENV_LOCAL, ENV_EXPORT, ENV_GLOBAL, ENV_USER, ENV_UNEXPORT,
              ENV_UNIVERSAL].all (fun g =>
            (g == f) || (has_flag (m ||| f) g == has_flag m g)))) = true) := by
  decide

/-- C7: the `env_set` result codes have exactly the values `OK=0,
PERM=1, SCOPE=2, INVALID=3` (consecutive enumerators from 0). -/
theorem set_result_codes :
    ENV_OK = 0 ∧ ENV_PERM = 1 ∧ ENV_SCOPE = 2 ∧ ENV_INVALID = 3 :=
  ⟨rfl, rfl, rfl, rfl⟩

theorem lookup_erase_key (l : List (String × env_var_t)) (n : String) :
    List.lookup n (erase_key l n) = none := by
  induction l with
  | nil => rfl
  | cons p rest ih =>
    rw [erase_key, List.filter_cons]
    by_cases h : p.1 = n
    · simp only [h, bne_self_eq_false]
      exact ih
    · have hne : (p.1 != n) = true := by
        simp [bne_iff_ne, h]
      simp only [hne, if_pos]
      rw [List.lookup]
      have : (n == p.1) = false := by
        simp [beq_eq_false_iff_ne]
        exact fun he => h he.symm
      rw [this]
      exact ih

theorem lookup_frames_erase (fs : List scope_frame) (n : String) :
    lookup_frames (erase_frames fs n) n = none := by
  induction fs with
  | nil => rfl
  | cons f rest ih =>
    rw [erase_frames, List.map_cons, lookup_frames]
    rw [show ({ f with vars := erase_key f.vars n } : scope_frame).vars =
      erase_key f.vars n from rfl]
    rw [lookup_erase_key]
    exact ih

theorem env_get_opt_erase_all (st : env_stack_t) (n : String) :
    env_get_opt n
      { st with locals := erase_frames st.locals n,
                globals := erase_key st.globals n,
                universals := erase_key st.universals n } = none := by
  simp [env_get_opt, lookup_frames_erase, lookup_erase_key]

/-- C8 counterexample: the claim fails at two explicit inputs.  First, a
read-only name that was previously set, removed with `ENV_USER`: the
remove returns nonzero and the variable stays present.  Second, a name
bound both in a local frame and in the global frame, removed with
`ENV_LOCAL`: the name existed in the targeted scope and the remove
returns 0, yet a subsequent `get(n)` is not missing (the global binding
remains visible). -/
theorem env_remove_claim_counterexample :
    ((env_get "status" ENV_DEFAULT
        ⟨[], [("status", ⟨"1", false, false⟩)], [], ["status"]⟩).missing
      = false ∧
     (env_remove "status" ENV_USER
        ⟨[], [("status", ⟨"1", false, false⟩)], [], ["status"]⟩).1 ≠ 0 ∧
     (env_get "status" ENV_DEFAULT
        (env_remove "status" ENV_USER
          ⟨[], [("status", ⟨"1", false, false⟩)], [], ["status"]⟩).2).missing
      = false) ∧
    ((env_get "x" ENV_LOCAL
        ⟨[⟨[("x", ⟨"inner", false, false⟩)], true⟩],
         [("x", ⟨"outer", false, false⟩)], [], []⟩).missing = false ∧
     (env_remove "x" ENV_LOCAL
        ⟨[⟨[("x", ⟨"inner", false, false⟩)], true⟩],
         [("x", ⟨"outer", false, false⟩)], [], []⟩).1 = 0 ∧
     (env_get "x" ENV_DEFAULT
        (env_remove "x" ENV_LOCAL
          ⟨[⟨[("x", ⟨"inner", false, false⟩)], true⟩],
           [("x", ⟨"outer", false, false⟩)], [], []⟩).2).missing
      = false) := by
  decide

/-- C8 (amended), for every name, mode and state: a `USER`-originated
remove of a read-only name returns nonzero and changes nothing;
otherwise `remove(n, mode)` returns 0 when `n` existed in the scopes the
mode targets and a subsequent `get` over those same targeted scopes
returns missing (for a mode without scope flags this is the mode-free
`get`), and `remove(n, mode)` on a name absent from the targeted
scopes — in particular a never-set name — returns nonzero and changes
nothing. -/
theorem env_remove_spec (st : env_stack_t) (n : String) (mode : Nat) :
    (has_flag mode ENV_USER = true → st.read_only.contains n = true →
      (env_remove n mode st).1 ≠ 0 ∧ (env_remove n mode st).2 = st) ∧
    (¬(has_flag mode ENV_USER = true ∧ st.read_only.contains n = true) →
      (remove_targets_exist n mode st = true →
        (env_remove n mode st).1 = 0 ∧
        (env_get n mode (env_remove n mode st).2).missing = true) ∧
      (remove_targets_exist n mode st = false →
        (env_remove n mode st).1 ≠ 0 ∧ (env_remove n mode st).2 = st)) := by
  constructor
  · intro hu hro
    rw [env_remove, hu, hro]
    simp
  · intro hnot
    have hcond : (has_flag mode ENV_USER && st.read_only.contains n) = false := by
      cases hU : has_flag mode ENV_USER <;>
        cases hC : st.read_only.contains n <;> simp_all
    cases hL : has_flag mode ENV_LOCAL with
    | true =>
      constructor
      · intro hex
        have hex' : (lookup_frames st.locals n).isSome = true := by
          rw [remove_targets_exist, hL] at hex
          simpa using hex
        rw [env_remove, hcond, hL, hex']
        simp only [Bool.false_eq_true, if_false, if_true]
        refine ⟨by trivial, ?_⟩
        rw [env_get, hL]
        simp [lookup_frames_erase, missing_var, env_var_t.missing,
          env_var_t.mk_default, env_var_t.set_missing]
      · intro hnex
        have hnex' : (lookup_frames st.locals n).isSome = false := by
          rw [remove_targets_exist, hL] at hnex
          simpa using hnex
        rw [env_remove, hcond, hL, hnex']
        simp
    | false =>
      cases hG : has_flag mode ENV_GLOBAL with
      | true =>
        constructor
        · intro hex
          have hex' : (st.globals.lookup n).isSome = true := by
            rw [remove_targets_exist, hL, hG] at hex
            simpa using hex
          rw [env_remove, hcond, hL, hG, hex']
          simp only [Bool.false_eq_true, if_false, if_true]
          refine ⟨by trivial, ?_⟩
          rw [env_get, hL, hG]
          simp [lookup_erase_key, missing_var, env_var_t.missing,
            env_var_t.mk_default, env_var_t.set_missing]
        · intro hnex
          have hnex' : (st.globals.lookup n).isSome = false := by
            rw [remove_targets_exist, hL, hG] at hnex
            simpa using hnex
          rw [env_remove, hcond, hL, hG, hnex']
          simp
      | false =>
        cases hU : has_flag mode ENV_UNIVERSAL with
        | true =>
          constructor
          · intro hex
            have hex' : (st.universals.lookup n).isSome = true := by
              rw [remove_targets_exist, hL, hG, hU] at hex
              simpa using hex
            rw [env_remove, hcond, hL, hG, hU, hex']
            simp only [Bool.false_eq_true, if_false, if_true]
            refine ⟨by trivial, ?_⟩
            rw [env_get, hL, hG, hU]
            simp [lookup_erase_key, missing_var, env_var_t.missing,
              env_var_t.mk_default, env_var_t.set_missing]
          · intro hnex
            have hnex' : (st.universals.lookup n).isSome = false := by
              rw [remove_targets_exist, hL, hG, hU] at hnex
              simpa using hnex
            rw [env_remove, hcond, hL, hG, hU, hnex']
            simp
        | false =>
          constructor
          · intro hex
            have hex' : (env_get_opt n st).isSome = true := by
              rw [remove_targets_exist, hL, hG, hU] at hex
              simpa using hex
            rw [env_remove, hcond, hL, hG, hU, hex']
            simp only [Bool.false_eq_true, if_false, if_true]
            refine ⟨by trivial, ?_⟩
            rw [env_get, hL, hG, hU]
            simp [env_get_opt_erase_all, missing_var, env_var_t.missing,
              env_var_t.mk_default, env_var_t.set_missing]
          · intro hnex
            have hnex' : (env_get_opt n st).isSome = false := by
              rw [remove_targets_exist, hL, hG, hU] at hnex
              simpa using hnex
            rw [env_remove, hcond, hL, hG, hU, hnex']
            simp

/-- C8 witness: removing a concrete previously-set name with the default
mode returns 0 and a subsequent `get` is missing. -/
theorem env_remove_spec_witness :
    (env_remove "x" 0 ⟨[], [("x", ⟨"1", false, false⟩)], [], []⟩).1 = 0 ∧
    (env_get "x" ENV_DEFAULT
        (env_remove "x" 0
          ⟨[], [("x", ⟨"1", false, false⟩)], [], []⟩).2).missing = true :=
  ((env_remove_spec ⟨[], [("x", ⟨"1", false, false⟩)], [], []⟩ "x" 0).2
      (by decide)).1 (by decide)

/-- C9: `env_pop` directly after a matching `env_push` succeeds and
restores the previous state, while `env_pop` when only the global frame
remains (no local frame on the stack) is the fatal underflow, embedded
as `none`. -/
theorem env_push_pop_spec (st : env_stack_t) (b : Bool) :
    env_pop (env_push b st) = some st ∧
    env_pop { st with locals := [] } = none :=
  ⟨rfl, rfl⟩

/-- C10: `operator!=` compares only the stored string values — it
ignores the missing and export flags — so for a missing `a` and a
present `b` holding the same string, `a == b` is false and `a != b` is
also false: `!=` is not the logical negation of `==`. -/
theorem env_var_ne_spec :
    (∀ (a b : env_var_t) (m1 m2 e1 e2 : Bool),
      env_var_ne { a with is_missing := m1, exportv := e1 }
          { b with is_missing := m2, exportv := e2 } =
        env_var_ne a b) ∧
    ((⟨"x", true, false⟩ : env_var_t).is_missing = true ∧
     (⟨"x", false, false⟩ : env_var_t).is_missing = false ∧
     (⟨"x", true, false⟩ : env_var_t).val =
       (⟨"x", false, false⟩ : env_var_t).val ∧
     env_var_eq ⟨"x", true, false⟩ ⟨"x", false, false⟩ = false ∧
     env_var_ne ⟨"x", true, false⟩ ⟨"x", false, false⟩ = false) :=
  ⟨fun _ _ _ _ _ _ => rfl, by decide⟩
